import Mathlib

/-!
# Verification of the rammerhead-proxy session engine and forwarding pipeline

Shallow embedding of `src/server/session-engine.ts`, `src/server/proxy-advanced.ts`
and `src/server/proxy.ts`.

Modelling conventions:
* JS `Date` values and `Date.now()` readings are milliseconds-since-epoch, `Nat`.
  Each call receives the current clock reading as an explicit `now` argument.
* JS string-keyed objects (`Record<string, string>`) are association lists
  `List (String × String)` in insertion order with unique keys;
  `obj[k] = v` is `recordSet`, `obj[k]` is `recordGet`, `delete obj[k]` is
  `recordDelete` (on a unique-key record, removing every pair with the key is
  the same as removing the one pair holding it).
* The JS `Map<string, SessionData>` is a `List SessionData` in insertion order,
  keyed by the `id` field (the engine always stores a session under its own id).
* `Math.random()`-driven choices are passed in as explicit index arguments; an
  index selects from the same fixed list the source draws from, with the list's
  natural out-of-range default (`jsIndex`).
-/

namespace Rammerhead

/-! ## String-keyed records (JS objects) -/

/-- The JS `obj[k]` read: value of the first pair with key `k`, if any. -/
def recordGet : List (String × String) → String → Option String
  | [], _ => none
  | p :: t, k => if p.1 == k then some p.2 else recordGet t k

/-- The JS `obj[k] = v` write: records have unique keys, so assignment replaces
the value at the key's existing position, or appends the new pair at the end
(JS objects keep insertion order). -/
def recordSet : List (String × String) → String → String → List (String × String)
  | [], k, v => [(k, v)]
  | p :: t, k, v => if p.1 == k then (k, v) :: t else p :: recordSet t k v

/-- The JS `delete obj[k]`: drop the pair holding key `k`, if present. -/
def recordDelete : List (String × String) → String → List (String × String)
  | [], _ => []
  | p :: t, k => if p.1 == k then recordDelete t k else p :: recordDelete t k

/-- Reading a key from a record after a write: the written key reads back the
written value, every other key is untouched. -/
theorem recordGet_recordSet (m : List (String × String)) (k v k' : String) :
    recordGet (recordSet m k v) k' = if k' == k then some v else recordGet m k' := by
  induction m with
  | nil =>
    by_cases hk : k' = k
    · simp [recordGet, recordSet, hk]
    · have hk' : ¬ k = k' := fun h => hk h.symm
      simp [recordGet, recordSet, hk, hk']
  | cons p t ih =>
    by_cases hp : p.1 = k
    · by_cases hk : k' = k
      · simp [recordGet, recordSet, hp, hk]
      · have hk' : ¬ k = k' := fun h => hk h.symm
        simp [recordGet, recordSet, hp, hk, hk']
    · by_cases hpk : p.1 = k'
      · have hk : ¬ k' = k := fun h => hp (h ▸ hpk)
        simp [recordGet, recordSet, hp, hpk, hk]
      · simpa [recordSet, recordGet, hp, hpk] using ih

/-- Reading a key from a record after a delete: the deleted key is gone,
every other key is untouched. -/
theorem recordGet_recordDelete (m : List (String × String)) (k k' : String) :
    recordGet (recordDelete m k) k' = if k' == k then none else recordGet m k' := by
  induction m with
  | nil => simp [recordGet, recordDelete]
  | cons p t ih =>
    by_cases hp : p.1 = k
    · by_cases hk : k' = k
      · simpa [recordGet, recordDelete, hp, hk] using ih
      · have hk' : ¬ k = k' := fun h => hk h.symm
        simpa [recordGet, recordDelete, hp, hk, hk'] using ih
    · by_cases hpk : p.1 = k'
      · have hk : ¬ k' = k := fun h => hp (h ▸ hpk)
        simp [recordGet, recordDelete, hp, hpk, hk]
      · simpa [recordDelete, recordGet, hp, hpk] using ih

/-- Deleting a key that no pair of the record holds leaves the record unchanged. -/
theorem recordDelete_of_absent (m : List (String × String)) (k : String)
    (h : ∀ p ∈ m, ¬ p.1 = k) : recordDelete m k = m := by
  induction m with
  | nil => rfl
  | cons p t ih =>
    have hp := h p (List.mem_cons_self p t)
    show (if p.1 == k then recordDelete t k else p :: recordDelete t k) = p :: t
    rw [if_neg (by simpa using hp), ih (fun q hq => h q (List.mem_cons_of_mem p hq))]

/-! ## Session engine (`src/server/session-engine.ts`) -/

/-- `BrowserFingerprint` interface (session-engine.ts lines 25-39). -/
structure BrowserFingerprint where
  userAgent : String
  acceptLanguage : String
  acceptEncoding : String
  timezone : String
  screenResolution : String
  colorDepth : Nat
  platform : String
  hardwareConcurrency : Nat
  deviceMemory : Nat
  webGLVendor : String
  webGLRenderer : String
  canvas : String
  webRTC : Bool
  deriving DecidableEq, Repr

/-- `RequestLog` interface (session-engine.ts lines 41-47). -/
structure RequestLog where
  timestamp : Nat
  method : String
  url : String
  statusCode : Nat
  duration : Nat
  deriving DecidableEq, Repr

/-- `SessionData` interface (session-engine.ts lines 13-23); `customProxy`
is optional and never written by the engine, so it is omitted. -/
structure SessionData where
  id : String
  createdAt : Nat
  lastAccessedAt : Nat
  cookies : List (String × String)
  localStorage : List (String × String)
  sessionStorage : List (String × String)
  browserFingerprint : BrowserFingerprint
  requestHistory : List RequestLog
  deriving DecidableEq, Repr

/-- The engine's `Map<string, SessionData>` in insertion order, keyed by the
`id` field of each entry (the engine always stores a session under its own id). -/
abbrev Store : Type := List SessionData

/-- `MAX_SESSIONS` (session-engine.ts line 51). -/
def MAX_SESSIONS : Nat := 100

/-- `SESSION_TIMEOUT`: 24 hours in milliseconds (session-engine.ts line 52). -/
def SESSION_TIMEOUT : Nat := 24 * 60 * 60 * 1000

/-- `Map.get`: the entry stored under `sessionId`, if any. -/
def storeFind (st : Store) (sessionId : String) : Option SessionData :=
  List.find? (fun e => e.id == sessionId) st

/-- In-place mutation of the session object stored under `sessionId`
(JS aliasing: the object inside the map is the one the engine mutates). -/
def storeUpdate (st : Store) (sessionId : String) (s' : SessionData) : Store :=
  List.map (fun e => if e.id == sessionId then s' else e) st

/-- `Map.delete`: remove the entry stored under `sessionId`. -/
def storeDelete (st : Store) (sessionId : String) : Store :=
  List.eraseP (fun e => e.id == sessionId) st

/-- `Map.set`: overwrite in place when the key is present, else append. -/
def storeSet (st : Store) (s : SessionData) : Store :=
  if List.any st (fun e => e.id == s.id) then storeUpdate st s.id s else st ++ [s]

/-- Number of live sessions, `Map.size`. -/
def storeSize (st : Store) : Nat := List.length st

/-- The `reduce` in `createSession` (session-engine.ts lines 60-62): fold over
`Array.from(this.sessions.values())` keeping `prev` when
`prev.lastAccessedAt < current.lastAccessedAt`, else taking `current`. -/
def olderOf (prev current : SessionData) : SessionData :=
  if prev.lastAccessedAt < current.lastAccessedAt then prev else current

def oldestSession (st : Store) : Option SessionData :=
  match st with
  | [] => none
  | s :: rest => some (rest.foldl olderOf s)

/-- `getSession` (session-engine.ts lines 87-98): touch `lastAccessedAt`, then
run the staleness check against the just-touched timestamp, deleting and
returning `undefined` when stale. Returns the result and the updated store. -/
def getSession (st : Store) (sessionId : String) (now : Nat) :
    Option SessionData × Store :=
  match storeFind st sessionId with
  | none => (none, st)
  | some session =>
    let session := { session with lastAccessedAt := now }
    let st := storeUpdate st sessionId session
    if SESSION_TIMEOUT < now - session.lastAccessedAt then
      (none, storeDelete st sessionId)
    else
      (some session, st)

/-- `browsers` archetypes (session-engine.ts lines 113-132): `userAgent`,
`platform`, `hardwareConcurrency` and `deviceMemory` drawn jointly. -/
structure BrowserArchetype where
  userAgent : String
  platform : String
  hardwareConcurrency : Nat
  deviceMemory : Nat
  deriving DecidableEq, Repr

def browsers : List BrowserArchetype :=
  [ { userAgent := "Mozilla/5.0 (Windows NT 10.0; Win64; x64) AppleWebKit/537.36 (KHTML, like Gecko) Chrome/120.0.0.0 Safari/537.36",
      platform := "Win32", hardwareConcurrency := 8, deviceMemory := 16 },
    { userAgent := "Mozilla/5.0 (Macintosh; Intel Mac OS X 10_15_7) AppleWebKit/605.1.15 (KHTML, like Gecko) Version/17.1 Safari/605.1.15",
      platform := "MacIntel", hardwareConcurrency := 8, deviceMemory := 16 },
    { userAgent := "Mozilla/5.0 (X11; Linux x86_64) AppleWebKit/537.36 (KHTML, like Gecko) Chrome/120.0.0.0 Safari/537.36",
      platform := "Linux x86_64", hardwareConcurrency := 4, deviceMemory := 8 } ]

def screenResolutions : List String := ["1920x1080", "1366x768", "1440x900", "2560x1440"]

def colorDepths : List Nat := [24, 32]

def timezones : List String := ["UTC", "Asia/Tokyo", "America/New_York", "Europe/London"]

/-- JS list indexing `l[i]` with a default for the (never-hit) out-of-range case. -/
def jsIndex {α : Type} (l : List α) (d : α) (i : Nat) : α := (l.get? i).getD d

/-- JS `a || b` on a string operand: the empty string is falsy. -/
def jsOrString : Option String → String → String
  | none, d => d
  | some s, d => if s = "" then d else s

/-- JS `a || b` on a numeric operand: `0` is falsy. -/
def jsOrNat : Option Nat → Nat → Nat
  | none, d => d
  | some n, d => if n = 0 then d else n

/-- JS `a ?? b`: only `undefined`/`null` falls through to the default. -/
def jsNullish {α : Type} : Option α → α → α
  | none, d => d
  | some a, _ => a

/-- `Partial<BrowserFingerprint>`: each field optionally supplied. -/
structure FingerprintOverrides where
  userAgent : Option String := none
  acceptLanguage : Option String := none
  acceptEncoding : Option String := none
  timezone : Option String := none
  screenResolution : Option String := none
  colorDepth : Option Nat := none
  platform : Option String := none
  hardwareConcurrency : Option Nat := none
  deviceMemory : Option Nat := none
  webGLVendor : Option String := none
  webGLRenderer : Option String := none
  canvas : Option String := none
  webRTC : Option Bool := none
  deriving DecidableEq, Repr

/-- The `Math.random()` draws consumed by one `generateBrowserFingerprint`
call, passed in explicitly: each index selects from the corresponding fixed
list; `canvasPicks` are the 32 character draws of `generateCanvasFingerprint`. -/
structure FingerprintRandom where
  browserIdx : Nat
  timezoneIdx : Nat
  resolutionIdx : Nat
  depthIdx : Nat
  canvasPicks : List Nat
  deriving DecidableEq, Repr

def canvasChars : String :=
  "ABCDEFGHIJKLMNOPQRSTUVWXYZabcdefghijklmnopqrstuvwxyz0123456789"

/-- `generateCanvasFingerprint` (session-engine.ts lines 159-166): 32 uniform
draws from `canvasChars`, concatenated. -/
def generateCanvasFingerprint (picks : List Nat) : String :=
  String.mk ((List.range 32).map
    (fun i => (canvasChars.toList.get? (jsIndex picks 0 i)).getD 'A'))

/-- `generateBrowserFingerprint` (session-engine.ts lines 110-154): one joint
archetype draw, independent draws for screen/depth/timezone, fixed defaults for
the rest; every field is `custom?.field || default` except `webRTC`, which is
`custom?.webRTC ?? true`. -/
def generateBrowserFingerprint (custom : Option FingerprintOverrides)
    (r : FingerprintRandom) : BrowserFingerprint :=
  let browser := jsIndex browsers
    { userAgent := "", platform := "", hardwareConcurrency := 0, deviceMemory := 0 }
    r.browserIdx
  { userAgent := jsOrString (custom.bind (fun c => c.userAgent)) browser.userAgent,
    acceptLanguage := jsOrString (custom.bind (fun c => c.acceptLanguage)) "ja-JP,ja;q=0.9",
    acceptEncoding := jsOrString (custom.bind (fun c => c.acceptEncoding)) "gzip, deflate, br",
    timezone := jsOrString (custom.bind (fun c => c.timezone)) (jsIndex timezones "" r.timezoneIdx),
    screenResolution := jsOrString (custom.bind (fun c => c.screenResolution))
      (jsIndex screenResolutions "" r.resolutionIdx),
    colorDepth := jsOrNat (custom.bind (fun c => c.colorDepth)) (jsIndex colorDepths 0 r.depthIdx),
    platform := jsOrString (custom.bind (fun c => c.platform)) browser.platform,
    hardwareConcurrency := jsOrNat (custom.bind (fun c => c.hardwareConcurrency))
      browser.hardwareConcurrency,
    deviceMemory := jsOrNat (custom.bind (fun c => c.deviceMemory)) browser.deviceMemory,
    webGLVendor := jsOrString (custom.bind (fun c => c.webGLVendor)) "Google Inc.",
    webGLRenderer := jsOrString (custom.bind (fun c => c.webGLRenderer)) "ANGLE (Intel HD Graphics)",
    canvas := jsOrString (custom.bind (fun c => c.canvas)) (generateCanvasFingerprint r.canvasPicks),
    webRTC := jsNullish (custom.bind (fun c => c.webRTC)) true }

/-- The nondeterministic inputs of one `createSession` call: the fresh random
session id, the caller's overrides, the fingerprint randomness and the clock. -/
structure CreateArgs where
  sessionId : String
  custom : Option FingerprintOverrides
  rand : FingerprintRandom
  now : Nat
  deriving DecidableEq, Repr

/-- The `SessionData` literal built by `createSession` (session-engine.ts
lines 69-78). -/
def newSessionData (a : CreateArgs) : SessionData :=
  { id := a.sessionId,
    createdAt := a.now,
    lastAccessedAt := a.now,
    cookies := [],
    localStorage := [],
    sessionStorage := [],
    browserFingerprint := generateBrowserFingerprint a.custom a.rand,
    requestHistory := [] }

/-- `createSession` (session-engine.ts lines 57-82): evict the
oldest-by-`lastAccessedAt` session when at capacity, then insert the new one. -/
def createSession (st : Store) (a : CreateArgs) : SessionData × Store :=
  let st :=
    if MAX_SESSIONS ≤ storeSize st then
      match oldestSession st with
      | some oldest => storeDelete st oldest.id
      | none => st
    else st
  let session := newSessionData a
  (session, storeSet st session)

/-- The composite cookie key (session-engine.ts line 175/187):
`` `${domain}:${name}` `` when a domain is given, else the bare name. -/
def cookieKey : Option String → String → String
  | some domain, name => domain ++ ":" ++ name
  | none, name => name

/-- `setCookie` (session-engine.ts lines 171-178). -/
def setCookie (st : Store) (sessionId name value : String) (domain : Option String)
    (now : Nat) : Bool × Store :=
  match getSession st sessionId now with
  | (none, st) => (false, st)
  | (some session, st) =>
    let session := { session with
      cookies := recordSet session.cookies (cookieKey domain name) value }
    (true, storeUpdate st sessionId session)

/-- `getCookie` (session-engine.ts lines 183-189). -/
def getCookie (st : Store) (sessionId name : String) (domain : Option String)
    (now : Nat) : Option String × Store :=
  match getSession st sessionId now with
  | (none, st) => (none, st)
  | (some session, st) => (recordGet session.cookies (cookieKey domain name), st)

/-- `setLocalStorage` (session-engine.ts lines 194-200). -/
def setLocalStorage (st : Store) (sessionId key value : String) (now : Nat) :
    Bool × Store :=
  match getSession st sessionId now with
  | (none, st) => (false, st)
  | (some session, st) =>
    let session := { session with localStorage := recordSet session.localStorage key value }
    (true, storeUpdate st sessionId session)

/-- `getLocalStorage` (session-engine.ts lines 205-210). -/
def getLocalStorage (st : Store) (sessionId key : String) (now : Nat) :
    Option String × Store :=
  match getSession st sessionId now with
  | (none, st) => (none, st)
  | (some session, st) => (recordGet session.localStorage key, st)

/-- The history append of `logRequest` (session-engine.ts lines 225-236):
push, then keep only the last 1000 entries when the bound is exceeded
(`slice(-1000)` on a list longer than 1000 keeps its final 1000 elements). -/
def logAppend (history : List RequestLog) (entry : RequestLog) : List RequestLog :=
  if 1000 < (history ++ [entry]).length then
    (history ++ [entry]).drop ((history ++ [entry]).length - 1000)
  else history ++ [entry]

/-- `logRequest` (session-engine.ts lines 215-239). -/
def logRequest (st : Store) (sessionId method url : String)
    (statusCode duration : Nat) (now : Nat) : Bool × Store :=
  match getSession st sessionId now with
  | (none, st) => (false, st)
  | (some session, st) =>
    let session := { session with
      requestHistory := logAppend session.requestHistory
        { timestamp := now, method := method, url := url,
          statusCode := statusCode, duration := duration } }
    (true, storeUpdate st sessionId session)

/-- `deleteSession` (session-engine.ts lines 255-257): `Map.delete` returns
whether the key was present. -/
def deleteSession (st : Store) (sessionId : String) : Bool × Store :=
  (List.any st (fun e => e.id == sessionId), storeDelete st sessionId)

/-- The summary object of `getSessionDetails` (session-engine.ts lines 273-282);
`slice(-10)` keeps the final ten history entries. -/
structure SessionDetails where
  id : String
  createdAt : Nat
  lastAccessedAt : Nat
  cookieCount : Nat
  localStorageCount : Nat
  requestCount : Nat
  browserFingerprint : BrowserFingerprint
  recentRequests : List RequestLog
  deriving DecidableEq, Repr

/-- `getSessionDetails` (session-engine.ts lines 269-283). -/
def getSessionDetails (st : Store) (sessionId : String) (now : Nat) :
    Option SessionDetails × Store :=
  match getSession st sessionId now with
  | (none, st) => (none, st)
  | (some s, st) =>
    (some { id := s.id,
            createdAt := s.createdAt,
            lastAccessedAt := s.lastAccessedAt,
            cookieCount := s.cookies.length,
            localStorageCount := s.localStorage.length,
            requestCount := s.requestHistory.length,
            browserFingerprint := s.browserFingerprint,
            recentRequests := s.requestHistory.drop (s.requestHistory.length - 10) }, st)

/-! ## Advanced proxy engine (`src/server/proxy-advanced.ts`) -/

/-- Header maps (`Record<string, any>` holding header strings). -/
abbrev Headers : Type := List (String × String)

/-- JS `String.prototype.toUpperCase()` on the ASCII header names used here:
uppercase each character. -/
def jsToUpperCase (s : String) : String := String.mk (s.toList.map Char.toUpper)

/-- JS `String.prototype.toLowerCase()` on the ASCII header names used here:
lowercase each character. -/
def jsToLowerCase (s : String) : String := String.mk (s.toList.map Char.toLower)

/-- `BROWSER_USER_AGENTS` (proxy-advanced.ts lines 16-35), by family. -/
def chromeAgents : List String :=
  [ "Mozilla/5.0 (Windows NT 10.0; Win64; x64) AppleWebKit/537.36 (KHTML, like Gecko) Chrome/120.0.0.0 Safari/537.36",
    "Mozilla/5.0 (Macintosh; Intel Mac OS X 10_15_7) AppleWebKit/537.36 (KHTML, like Gecko) Chrome/120.0.0.0 Safari/537.36",
    "Mozilla/5.0 (X11; Linux x86_64) AppleWebKit/537.36 (KHTML, like Gecko) Chrome/120.0.0.0 Safari/537.36" ]

def firefoxAgents : List String :=
  [ "Mozilla/5.0 (Windows NT 10.0; Win64; x64; rv:121.0) Gecko/20100101 Firefox/121.0",
    "Mozilla/5.0 (Macintosh; Intel Mac OS X 10.15; rv:121.0) Gecko/20100101 Firefox/121.0",
    "Mozilla/5.0 (X11; Linux x86_64; rv:121.0) Gecko/20100101 Firefox/121.0" ]

def safariAgents : List String :=
  [ "Mozilla/5.0 (Macintosh; Intel Mac OS X 10_15_7) AppleWebKit/605.1.15 (KHTML, like Gecko) Version/17.1 Safari/605.1.15",
    "Mozilla/5.0 (iPhone; CPU iPhone OS 17_1 like Mac OS X) AppleWebKit/605.1.15 (KHTML, like Gecko) Version/17.1 Mobile/15E148 Safari/604.1" ]

def edgeAgents : List String :=
  [ "Mozilla/5.0 (Windows NT 10.0; Win64; x64) AppleWebKit/537.36 (KHTML, like Gecko) Chrome/120.0.0.0 Safari/537.36 Edg/120.0.0.0",
    "Mozilla/5.0 (Macintosh; Intel Mac OS X 10_15_7) AppleWebKit/537.36 (KHTML, like Gecko) Chrome/120.0.0.0 Safari/537.36 Edg/120.0.0.0" ]

/-- `Object.values(BROWSER_USER_AGENTS).flat()` (proxy-advanced.ts line 85). -/
def allUserAgents : List String :=
  chromeAgents ++ firefoxAgents ++ safariAgents ++ edgeAgents

/-- `TRACKING_HEADERS` (proxy-advanced.ts lines 38-53): fourteen names. -/
def TRACKING_HEADERS : List String :=
  [ "x-forwarded-for", "x-forwarded-proto", "x-forwarded-host", "x-real-ip",
    "cf-connecting-ip", "cf-ray", "cf-ipcountry", "x-client-ip",
    "x-originating-ip", "x-cluster-client-ip", "x-forwarded-server",
    "x-forwarded-by", "x-forwarded-for-original", "x-original-forwarded-for" ]

/-- `SECURITY_HEADERS` (proxy-advanced.ts lines 56-63): six names. -/
def SECURITY_HEADERS : List String :=
  [ "content-security-policy", "x-frame-options", "x-content-type-options",
    "x-xss-protection", "strict-transport-security", "referrer-policy" ]

/-- `getRandomUserAgent` (proxy-advanced.ts lines 84-87), the random draw
passed in as an index. -/
def getRandomUserAgent (i : Nat) : String := jsIndex allUserAgents "" i

def spoofLanguages : List String :=
  ["ja-JP,ja;q=0.9", "en-US,en;q=0.9", "en-GB,en;q=0.9"]

/-- `spoofHeaders` (proxy-advanced.ts lines 100-131): spread-copy the input,
then overwrite the fixed set of keys on the copy. -/
def spoofHeaders (headers : Headers) (uaIdx langIdx : Nat) : Headers :=
  let spoofed := headers
  let spoofed := recordSet spoofed "user-agent" (getRandomUserAgent uaIdx)
  let spoofed := recordSet spoofed "accept-language" (jsIndex spoofLanguages "" langIdx)
  let spoofed := recordSet spoofed "accept-encoding" "gzip, deflate, br"
  let spoofed := recordSet spoofed "accept"
    "text/html,application/xhtml+xml,application/xml;q=0.9,image/webp,*/*;q=0.8"
  let spoofed := recordSet spoofed "dnt" "1"
  let spoofed := recordSet spoofed "sec-fetch-dest" "document"
  let spoofed := recordSet spoofed "sec-fetch-mode" "navigate"
  let spoofed := recordSet spoofed "sec-fetch-site" "none"
  let spoofed := recordSet spoofed "sec-fetch-user" "?1"
  let spoofed := recordSet spoofed "sec-ch-ua" "\"Not_A Brand\";v=\"8\", \"Chromium\";v=\"120\""
  let spoofed := recordSet spoofed "sec-ch-ua-mobile" "?0"
  let spoofed := recordSet spoofed "sec-ch-ua-platform" "\"Windows\""
  spoofed

/-- The heap effect of one `spoofHeaders` call: the source assigns only to the
fresh spread-copy `spoofed`, never through the `headers` reference, so the call
leaves the caller's map as it was and hands back the spoofed copy. The first
component is the caller's map after the call, the second the returned map. -/
def spoofHeadersCall (headers : Headers) (uaIdx langIdx : Nat) : Headers × Headers :=
  (headers, spoofHeaders headers uaIdx langIdx)

/-- `removeTrackingHeaders` (proxy-advanced.ts lines 136-143): on a spread
copy, delete each listed name and its all-uppercase form. -/
def removeTrackingHeaders (headers : Headers) : Headers :=
  TRACKING_HEADERS.foldl
    (fun cleaned header => recordDelete (recordDelete cleaned header) (jsToUpperCase header))
    headers

/-- `removeSecurityHeaders` (proxy-advanced.ts lines 148-155). -/
def removeSecurityHeaders (headers : Headers) : Headers :=
  SECURITY_HEADERS.foldl
    (fun cleaned header => recordDelete (recordDelete cleaned header) (jsToUpperCase header))
    headers

/-- Parsed form of a URL string, as Node's `new URL` exposes it: `origin`
reads scheme and host, `hostname` drops the port, and assigning `pathname`
or `search` never changes the origin. -/
structure URLModel where
  scheme : String
  host : String
  hostname : String
  path : String
  query : String
  deriving DecidableEq, Repr

/-- `url.origin`. -/
def urlOrigin (u : URLModel) : String := u.scheme ++ "://" ++ u.host

def refererPaths : List String := ["/", "/search", "/page", "/index.html"]

/-- `generateReferer` (proxy-advanced.ts lines 194-203): the target's hostname
plus one randomly drawn path from a fixed set. -/
def generateReferer (targetUrl : URLModel) (pathIdx : Nat) : String :=
  "https://" ++ targetUrl.hostname ++ jsIndex refererPaths "" pathIdx

/-- `fullSpoof` (proxy-advanced.ts lines 225-239): spoof, strip tracking and
security headers, then force referer/upgrade/cache-control/pragma. -/
def fullSpoof (headers : Headers) (targetUrl : URLModel)
    (uaIdx langIdx pathIdx : Nat) : Headers :=
  let spoofed := spoofHeaders headers uaIdx langIdx
  let spoofed := removeTrackingHeaders spoofed
  let spoofed := removeSecurityHeaders spoofed
  let spoofed := recordSet spoofed "referer" (generateReferer targetUrl pathIdx)
  let spoofed := recordSet spoofed "upgrade-insecure-requests" "1"
  let spoofed := recordSet spoofed "cache-control" "max-age=0"
  let spoofed := recordSet spoofed "pragma" "no-cache"
  spoofed

/-! ## Proxy server (`src/server/proxy.ts`) -/

/-- `ProxyConfig` (proxy.ts lines 17-22), with the target URL already in its
parsed form and the constructor's defaults resolved: `userAgent` is the
configured or randomly drawn one (always set after the constructor). -/
structure ProxyConfig where
  targetUrl : URLModel
  headers : List (String × String)
  userAgent : String
  deriving DecidableEq, Repr

/-- An inbound `IncomingMessage`: method, url (path plus query) and headers. -/
structure InboundRequest where
  method : String
  url : String
  headers : Headers
  deriving DecidableEq, Repr

/-- What one `handleRequest` call does: either write a response directly, or
hand the (possibly modified) request to `proxy.web` with a target. -/
inductive HandleResult where
  | respond (status : Nat) (headers : Headers) (body : String)
  | forward (target : String) (url : String) (headers : Headers)
  deriving DecidableEq, Repr

/-- `modifyRequest` (proxy.ts lines 95-120): full spoof, overlay the
configured custom headers (lowercased keys), force the configured user agent,
then write every spoofed entry back into `req.headers` under its lowercased
key. -/
def modifyRequest (cfg : ProxyConfig) (req : InboundRequest)
    (uaIdx langIdx pathIdx : Nat) : InboundRequest :=
  let spoofedHeaders := fullSpoof req.headers cfg.targetUrl uaIdx langIdx pathIdx
  let spoofedHeaders := cfg.headers.foldl
    (fun acc p => recordSet acc (jsToLowerCase p.1) p.2) spoofedHeaders
  let spoofedHeaders := recordSet spoofedHeaders "user-agent" cfg.userAgent
  { req with
    headers := spoofedHeaders.foldl
      (fun acc p => recordSet acc (jsToLowerCase p.1) p.2) req.headers }

/-- The three CORS headers of the `OPTIONS` short-circuit
(proxy.ts lines 125-129). -/
def corsHeaders : Headers :=
  [ ("access-control-allow-origin", "*"),
    ("access-control-allow-methods", "GET, POST, PUT, DELETE, OPTIONS"),
    ("access-control-allow-headers", "Content-Type, Authorization") ]

/-- `handleRequest` (proxy.ts lines 122-156): `OPTIONS` requests short-circuit
with a 200 CORS response and an empty body; every other request is modified and
handed to `proxy.web` with the configured target's origin (the pathname/search
assignments on `targetUrl` feed only the log line — `origin` ignores them). -/
def handleRequest (cfg : ProxyConfig) (req : InboundRequest)
    (uaIdx langIdx pathIdx : Nat) : HandleResult :=
  if req.method == "OPTIONS" then
    .respond 200 corsHeaders ""
  else
    let modifiedReq := modifyRequest cfg req uaIdx langIdx pathIdx
    let targetUrl := cfg.targetUrl
    let targetUrl :=
      if req.url.contains '?' then
        let parts := req.url.splitOn "?"
        { targetUrl with path := parts.headD "", query := (parts.drop 1).headD "" }
      else
        { targetUrl with path := if req.url = "" then "/" else req.url }
    .forward (urlOrigin targetUrl) modifiedReq.url modifiedReq.headers

/-- Modelled from the spec: the actual wire request is issued by the external
`http-proxy` dependency, which is not part of this repository. Its contract —
"substituting the inbound request's path and query string verbatim ... a
transparent reverse-proxy contract" — sends the forwarded request's url
appended to the supplied target, so the outbound proxied URL of a `forward`
result is `target ++ url`; a direct response has no outbound URL. -/
def outboundUrl : HandleResult → Option String
  | .forward target url _ => some (target ++ url)
  | .respond _ _ _ => none

/-! ## Store helper lemmas -/

theorem storeFind_some_id {st : Store} {sessionId : String} {s : SessionData}
    (h : storeFind st sessionId = some s) : s.id = sessionId := by
  have := List.find?_some h
  simpa using this

theorem storeFind_storeUpdate_self {st : Store} {sessionId : String}
    {s s' : SessionData} (h : storeFind st sessionId = some s)
    (hid : s'.id = sessionId) :
    storeFind (storeUpdate st sessionId s') sessionId = some s' := by
  induction st with
  | nil => simp [storeFind] at h
  | cons e t ih =>
    by_cases he : e.id = sessionId
    · simp [storeFind, storeUpdate, he, hid]
    · have h' : storeFind t sessionId = some s := by
        simpa [storeFind, he] using h
      simpa [storeFind, storeUpdate, he] using ih h'

/-- `getSession` on a present id returns the touched session and touches it in
the store; the staleness check, run after the touch, can never fire. -/
theorem getSession_found {st : Store} {sessionId : String} {now : Nat}
    {s : SessionData} (h : storeFind st sessionId = some s) :
    getSession st sessionId now =
      (some { s with lastAccessedAt := now },
       storeUpdate st sessionId { s with lastAccessedAt := now }) := by
  unfold getSession
  rw [h]
  simp [SESSION_TIMEOUT]

/-- `getSession` on an absent id returns `undefined` and leaves the store as is. -/
theorem getSession_not_found {st : Store} {sessionId : String} {now : Nat}
    (h : storeFind st sessionId = none) :
    getSession st sessionId now = (none, st) := by
  unfold getSession
  rw [h]

/-! ## Concrete example data used by witnesses -/

def exampleFingerprint : BrowserFingerprint :=
  { userAgent := "ua", acceptLanguage := "al", acceptEncoding := "ae",
    timezone := "UTC", screenResolution := "1920x1080", colorDepth := 24,
    platform := "Win32", hardwareConcurrency := 8, deviceMemory := 16,
    webGLVendor := "gv", webGLRenderer := "gr", canvas := "cv", webRTC := true }

def exampleSession : SessionData :=
  { id := "s1", createdAt := 0, lastAccessedAt := 0, cookies := [],
    localStorage := [], sessionStorage := [], browserFingerprint := exampleFingerprint,
    requestHistory := [] }

/-! ## C2 -/

/-- C2: for every session id present in the store, `getSession` updates the
session's `lastAccessedAt` to the current time before the staleness check is
evaluated, so the staleness condition (`now` minus `lastAccessedAt` greater
than `SESSION_TIMEOUT`) is false at the moment it is checked; the stale-delete
branch is unreachable for a present session and `getSession` returns the
(touched) session. -/
theorem C2_getSession_touch_defeats_timeout (st : Store) (sessionId : String)
    (now : Nat) (s : SessionData) (h : storeFind st sessionId = some s) :
    ¬ SESSION_TIMEOUT <
        now - ({ s with lastAccessedAt := now } : SessionData).lastAccessedAt ∧
    getSession st sessionId now =
      (some { s with lastAccessedAt := now },
       storeUpdate st sessionId { s with lastAccessedAt := now }) := by
  refine ⟨?_, getSession_found h⟩
  simp [SESSION_TIMEOUT]

/-- Witness for C2 at a concrete one-session store. -/
theorem C2_witness :
    storeFind [exampleSession] "s1" = some exampleSession ∧
    getSession [exampleSession] "s1" 5 =
      (some { exampleSession with lastAccessedAt := 5 },
       storeUpdate [exampleSession] "s1" { exampleSession with lastAccessedAt := 5 }) :=
  ⟨by decide,
   (C2_getSession_touch_defeats_timeout [exampleSession] "s1" 5 exampleSession
      (by decide)).2⟩

/-! ## C7 -/

/-- C7: every Session Store operation on an id absent from the store degrades
gracefully and never throws: `setCookie`, `setLocalStorage` and `logRequest`
return `false`; `getCookie` and `getLocalStorage` return `undefined`;
`getSessionDetails` returns `null`; `deleteSession` returns `false`; and each
call leaves the store unchanged. -/
theorem C7_unknown_session_degrades_gracefully (st : Store) (sessionId : String)
    (name value key method url : String) (domain : Option String)
    (statusCode duration now : Nat)
    (h : storeFind st sessionId = none) :
    setCookie st sessionId name value domain now = (false, st) ∧
    getCookie st sessionId name domain now = (none, st) ∧
    setLocalStorage st sessionId key value now = (false, st) ∧
    getLocalStorage st sessionId key now = (none, st) ∧
    logRequest st sessionId method url statusCode duration now = (false, st) ∧
    getSessionDetails st sessionId now = (none, st) ∧
    deleteSession st sessionId = (false, st) := by
  have hnotfound : getSession st sessionId now = (none, st) := getSession_not_found h
  have hall : ∀ e ∈ st, ¬ (e.id == sessionId) = true := by
    simpa [storeFind, List.find?_eq_none] using h
  refine ⟨?_, ?_, ?_, ?_, ?_, ?_, ?_⟩
  · unfold setCookie; rw [hnotfound]
  · unfold getCookie; rw [hnotfound]
  · unfold setLocalStorage; rw [hnotfound]
  · unfold getLocalStorage; rw [hnotfound]
  · unfold logRequest; rw [hnotfound]
  · unfold getSessionDetails; rw [hnotfound]
  · unfold deleteSession storeDelete
    rw [List.eraseP_of_forall_not hall]
    have : List.any st (fun e => e.id == sessionId) = false := by
      rw [List.any_eq_false]
      exact hall
    rw [this]

/-- Witness for C7 at a concrete store that does not hold the queried id. -/
theorem C7_witness :
    storeFind [exampleSession] "other" = none ∧
    setCookie [exampleSession] "other" "n" "v" (some "d") 7 = (false, [exampleSession]) ∧
    deleteSession [exampleSession] "other" = (false, [exampleSession]) := by
  have h : storeFind [exampleSession] "other" = none := by decide
  have := C7_unknown_session_degrades_gracefully [exampleSession] "other"
    "n" "v" "k" "GET" "http://e" (some "d") 200 3 7 h
  exact ⟨h, this.1, this.2.2.2.2.2.2⟩

/-! ## C6 -/

/-- C6: every inbound request whose method is `OPTIONS` is answered directly
with status 200, exactly the three CORS headers and an empty body, and is
never handed to the upstream proxy. -/
theorem C6_options_short_circuit (cfg : ProxyConfig) (req : InboundRequest)
    (uaIdx langIdx pathIdx : Nat) (h : req.method = "OPTIONS") :
    handleRequest cfg req uaIdx langIdx pathIdx = .respond 200 corsHeaders "" ∧
    outboundUrl (handleRequest cfg req uaIdx langIdx pathIdx) = none := by
  unfold handleRequest
  simp [h, outboundUrl]

def exampleTarget : URLModel :=
  { scheme := "https", host := "example.com", hostname := "example.com",
    path := "", query := "" }

def exampleConfig : ProxyConfig :=
  { targetUrl := exampleTarget, headers := [], userAgent := "cfg-ua" }

/-- Witness for C6 at a concrete `OPTIONS` request. -/
theorem C6_witness :
    ("OPTIONS" : String) = "OPTIONS" ∧
    handleRequest exampleConfig
        { method := "OPTIONS", url := "/proxy", headers := [] } 0 0 0 =
      .respond 200 corsHeaders "" :=
  ⟨rfl,
   (C6_options_short_circuit exampleConfig
      { method := "OPTIONS", url := "/proxy", headers := [] } 0 0 0 rfl).1⟩

/-! ## C9 -/

/-- C9: `spoofHeaders` leaves the caller's header map unchanged (the source
mutates only the spread copy) and the returned map has `user-agent`,
`accept-language`, `accept-encoding`, `accept`, `dnt`, the `sec-fetch-*` set
and the `sec-ch-ua*` set overwritten with the spoofed values, whatever the
input map held. -/
theorem C9_spoofHeaders_pure_and_overwrites (headers : Headers) (uaIdx langIdx : Nat) :
    (spoofHeadersCall headers uaIdx langIdx).1 = headers ∧
    recordGet (spoofHeadersCall headers uaIdx langIdx).2 "user-agent" =
      some (getRandomUserAgent uaIdx) ∧
    recordGet (spoofHeadersCall headers uaIdx langIdx).2 "accept-language" =
      some (jsIndex spoofLanguages "" langIdx) ∧
    recordGet (spoofHeadersCall headers uaIdx langIdx).2 "accept-encoding" =
      some "gzip, deflate, br" ∧
    recordGet (spoofHeadersCall headers uaIdx langIdx).2 "accept" =
      some "text/html,application/xhtml+xml,application/xml;q=0.9,image/webp,*/*;q=0.8" ∧
    recordGet (spoofHeadersCall headers uaIdx langIdx).2 "dnt" = some "1" ∧
    recordGet (spoofHeadersCall headers uaIdx langIdx).2 "sec-fetch-dest" = some "document" ∧
    recordGet (spoofHeadersCall headers uaIdx langIdx).2 "sec-fetch-mode" = some "navigate" ∧
    recordGet (spoofHeadersCall headers uaIdx langIdx).2 "sec-fetch-site" = some "none" ∧
    recordGet (spoofHeadersCall headers uaIdx langIdx).2 "sec-fetch-user" = some "?1" ∧
    recordGet (spoofHeadersCall headers uaIdx langIdx).2 "sec-ch-ua" =
      some "\"Not_A Brand\";v=\"8\", \"Chromium\";v=\"120\"" ∧
    recordGet (spoofHeadersCall headers uaIdx langIdx).2 "sec-ch-ua-mobile" = some "?0" ∧
    recordGet (spoofHeadersCall headers uaIdx langIdx).2 "sec-ch-ua-platform" =
      some "\"Windows\"" := by
  refine ⟨rfl, ?_, ?_, ?_, ?_, ?_, ?_, ?_, ?_, ?_, ?_, ?_, ?_⟩ <;>
    simp [spoofHeadersCall, spoofHeaders, recordGet_recordSet]

/-! ## C8 -/

/-- C8: for every non-`OPTIONS` inbound request, the outbound proxied URL is
the configured target's origin with the inbound request's path and query
string (its `url`) appended verbatim, and any path or query carried by the
configured target itself is discarded: replacing the target's path and query
by anything else leaves the outbound URL unchanged. -/
theorem C8_outbound_url_is_origin_plus_inbound (cfg : ProxyConfig)
    (req : InboundRequest) (uaIdx langIdx pathIdx : Nat) (p q : String)
    (h : ¬ req.method = "OPTIONS") :
    outboundUrl (handleRequest cfg req uaIdx langIdx pathIdx) =
      some (urlOrigin cfg.targetUrl ++ req.url) ∧
    outboundUrl
        (handleRequest
          { cfg with targetUrl := { cfg.targetUrl with path := p, query := q } }
          req uaIdx langIdx pathIdx) =
      some (urlOrigin cfg.targetUrl ++ req.url) := by
  constructor <;>
    · unfold handleRequest
      rw [if_neg (by simpa using h)]
      simp only [modifyRequest]
      split <;> simp [outboundUrl, urlOrigin]

/-- Witness for C8 at a concrete GET request with path and query. -/
theorem C8_witness :
    ¬ ("GET" : String) = "OPTIONS" ∧
    outboundUrl (handleRequest exampleConfig
        { method := "GET", url := "/a/b?x=1&y=2", headers := [] } 0 0 0) =
      some (urlOrigin exampleConfig.targetUrl ++ "/a/b?x=1&y=2") ∧
    urlOrigin exampleConfig.targetUrl ++ "/a/b?x=1&y=2" =
      "https://example.com/a/b?x=1&y=2" :=
  ⟨by decide,
   (C8_outbound_url_is_origin_plus_inbound exampleConfig
      { method := "GET", url := "/a/b?x=1&y=2", headers := [] } 0 0 0
      "/stale" "?old=1" (by decide)).1,
   by decide⟩

/-! ## C5 -/

/-- Reading a key after the paired lowercase/uppercase deletions that
`removeTrackingHeaders`/`removeSecurityHeaders` run over a name list: a key is
gone iff it equals one of the listed names or one of their all-uppercase
forms; every other key is untouched. -/
theorem recordGet_foldl_delete2 (names : List String) (m : Headers) (k : String) :
    recordGet (names.foldl
        (fun cleaned header => recordDelete (recordDelete cleaned header) (jsToUpperCase header))
        m) k =
      if names.any (fun h => k == h || k == jsToUpperCase h) then none
      else recordGet m k := by
  induction names generalizing m with
  | nil => simp
  | cons h t ih =>
    simp only [List.foldl_cons, List.any_cons]
    rw [ih, recordGet_recordDelete, recordGet_recordDelete]
    by_cases h1 : k = h
    · simp [h1]
    · by_cases h2 : k = jsToUpperCase h
      · simp [h1, h2]
      · simp [h1, h2]

/-- The per-name deletion predicate holds iff the key is a listed name or the
all-uppercase form of one. -/
theorem any_delete2_iff (names : List String) (k : String) :
    (names.any (fun h => k == h || k == jsToUpperCase h) = true) ↔
      (k ∈ names ∨ k ∈ names.map jsToUpperCase) := by
  simp only [List.any_eq_true, Bool.or_eq_true, beq_iff_eq, List.mem_map]
  constructor
  · rintro ⟨h, hh, heq | heq⟩
    · exact Or.inl (heq ▸ hh)
    · exact Or.inr ⟨h, hh, heq.symm⟩
  · rintro (hk | ⟨h, hh, heq⟩)
    · exact ⟨k, hk, Or.inl rfl⟩
    · exact ⟨h, hh, Or.inr heq.symm⟩

/-- The paired deletions leave a map with none of the listed keys (in either
written casing) unchanged. -/
theorem foldl_delete2_of_absent (names : List String) (m : Headers)
    (h : ∀ p ∈ m, ∀ n ∈ names, ¬ p.1 = n ∧ ¬ p.1 = jsToUpperCase n) :
    names.foldl
      (fun cleaned header => recordDelete (recordDelete cleaned header) (jsToUpperCase header))
      m = m := by
  induction names with
  | nil => rfl
  | cons n t ih =>
    simp only [List.foldl_cons]
    rw [recordDelete_of_absent m n
        (fun p hp => (h p hp n (List.mem_cons_self n t)).1),
      recordDelete_of_absent m (jsToUpperCase n)
        (fun p hp => (h p hp n (List.mem_cons_self n t)).2)]
    exact ih (fun p hp n' hn' => h p hp n' (List.mem_cons_of_mem n hn'))

/-- C5 counterexample: the claim says a key in any mixed casing, such as
`X-Forwarded-For`, is absent after `removeTrackingHeaders`; in fact only the
exact lowercase and all-uppercase spellings are deleted, and the mixed-case
key survives with its value. -/
theorem C5_counterexample :
    recordGet (removeTrackingHeaders [("X-Forwarded-For", "203.0.113.7")])
      "X-Forwarded-For" = some "203.0.113.7" := by decide

/-- C5 (amended): `removeTrackingHeaders` and `removeSecurityHeaders` delete
exactly the keys that equal one of the enumerated names verbatim (lowercase)
or the all-uppercase form of one; keys in any other casing are untouched, and
a map holding none of those keys comes back unchanged (deleting an absent key
is a no-op). -/
theorem C5_remove_headers_two_casings (m : Headers) (k : String) :
    ((k ∈ TRACKING_HEADERS ∨ k ∈ TRACKING_HEADERS.map jsToUpperCase) →
      recordGet (removeTrackingHeaders m) k = none) ∧
    ((k ∈ SECURITY_HEADERS ∨ k ∈ SECURITY_HEADERS.map jsToUpperCase) →
      recordGet (removeSecurityHeaders m) k = none) ∧
    ((¬ k ∈ TRACKING_HEADERS ∧ ¬ k ∈ TRACKING_HEADERS.map jsToUpperCase) →
      recordGet (removeTrackingHeaders m) k = recordGet m k) ∧
    ((¬ k ∈ SECURITY_HEADERS ∧ ¬ k ∈ SECURITY_HEADERS.map jsToUpperCase) →
      recordGet (removeSecurityHeaders m) k = recordGet m k) ∧
    ((∀ p ∈ m, ∀ n ∈ TRACKING_HEADERS, ¬ p.1 = n ∧ ¬ p.1 = jsToUpperCase n) →
      removeTrackingHeaders m = m) ∧
    ((∀ p ∈ m, ∀ n ∈ SECURITY_HEADERS, ¬ p.1 = n ∧ ¬ p.1 = jsToUpperCase n) →
      removeSecurityHeaders m = m) := by
  refine ⟨?_, ?_, ?_, ?_, ?_, ?_⟩
  · intro hmem
    unfold removeTrackingHeaders
    rw [recordGet_foldl_delete2, if_pos ((any_delete2_iff _ _).mpr hmem)]
  · intro hmem
    unfold removeSecurityHeaders
    rw [recordGet_foldl_delete2, if_pos ((any_delete2_iff _ _).mpr hmem)]
  · intro hmem
    unfold removeTrackingHeaders
    rw [recordGet_foldl_delete2, if_neg]
    intro hany
    rcases (any_delete2_iff _ _).mp hany with h1 | h2
    · exact hmem.1 h1
    · exact hmem.2 h2
  · intro hmem
    unfold removeSecurityHeaders
    rw [recordGet_foldl_delete2, if_neg]
    intro hany
    rcases (any_delete2_iff _ _).mp hany with h1 | h2
    · exact hmem.1 h1
    · exact hmem.2 h2
  · exact fun habs => foldl_delete2_of_absent _ m habs
  · exact fun habs => foldl_delete2_of_absent _ m habs

/-- Witness for C5's amended statement: the lowercase tracking name and the
all-uppercase security name are deleted, the mixed-case key is preserved. -/
theorem C5_witness :
    ("x-forwarded-for" ∈ TRACKING_HEADERS ∨
      "x-forwarded-for" ∈ TRACKING_HEADERS.map jsToUpperCase) ∧
    recordGet (removeTrackingHeaders [("x-forwarded-for", "1.2.3.4")])
      "x-forwarded-for" = none ∧
    ("X-FRAME-OPTIONS" ∈ SECURITY_HEADERS ∨
      "X-FRAME-OPTIONS" ∈ SECURITY_HEADERS.map jsToUpperCase) ∧
    recordGet (removeSecurityHeaders [("X-FRAME-OPTIONS", "DENY")])
      "X-FRAME-OPTIONS" = none ∧
    recordGet (removeTrackingHeaders [("X-Forwarded-Host", "h")])
      "X-Forwarded-Host" = recordGet [("X-Forwarded-Host", "h")] "X-Forwarded-Host" :=
  ⟨Or.inl (by decide),
   (C5_remove_headers_two_casings [("x-forwarded-for", "1.2.3.4")]
      "x-forwarded-for").1 (Or.inl (by decide)),
   Or.inr (by decide),
   (C5_remove_headers_two_casings [("X-FRAME-OPTIONS", "DENY")]
      "X-FRAME-OPTIONS").2.1 (Or.inr (by decide)),
   (C5_remove_headers_two_casings [("X-Forwarded-Host", "h")]
      "X-Forwarded-Host").2.2.1 ⟨by decide, by decide⟩⟩

/-! ## C10 -/

/-- `setCookie` on a present session: touch, write the cookie under its
composite key, store the mutated session, return `true`. -/
theorem setCookie_found {st : Store} {sessionId : String} {s : SessionData}
    (name value : String) (domain : Option String) (now : Nat)
    (h : storeFind st sessionId = some s) :
    setCookie st sessionId name value domain now =
      (true,
       storeUpdate (storeUpdate st sessionId { s with lastAccessedAt := now })
         sessionId
         { s with lastAccessedAt := now,
                  cookies := recordSet s.cookies (cookieKey domain name) value }) := by
  unfold setCookie
  rw [getSession_found h]

/-- `getCookie` on a present session reads the cookie under its composite key. -/
theorem getCookie_found {st : Store} {sessionId : String} {s : SessionData}
    (name : String) (domain : Option String) (now : Nat)
    (h : storeFind st sessionId = some s) :
    (getCookie st sessionId name domain now).1 =
      recordGet s.cookies (cookieKey domain name) := by
  unfold getCookie
  rw [getSession_found h]

/-- The session visible after a `setCookie` on a present session. -/
theorem storeFind_after_setCookie {st : Store} {sessionId : String}
    {s : SessionData} (name value : String) (domain : Option String) (now : Nat)
    (h : storeFind st sessionId = some s) :
    storeFind (setCookie st sessionId name value domain now).2 sessionId =
      some { s with lastAccessedAt := now,
                    cookies := recordSet s.cookies (cookieKey domain name) value } := by
  rw [setCookie_found name value domain now h]
  have hid : s.id = sessionId := storeFind_some_id h
  exact storeFind_storeUpdate_self (storeFind_storeUpdate_self h hid) hid

/-- C10: cookie keys alias across the two addressing forms. Storing a cookie
named `n` under domain `d` uses the composite key `d ++ ":" ++ n`, which is the
very storage key a domainless cookie literally named `d ++ ":" ++ n` uses: the
domain-qualified write is readable without a domain, and a later domainless
write under the composite name overwrites the domain-qualified cookie. -/
theorem C10_cookie_key_aliasing (st : Store) (sessionId : String) (s : SessionData)
    (n v d w : String) (t1 t2 t3 t4 : Nat)
    (h : storeFind st sessionId = some s) :
    cookieKey (some d) n = cookieKey none (d ++ ":" ++ n) ∧
    (getCookie (setCookie st sessionId n v (some d) t1).2 sessionId
        (d ++ ":" ++ n) none t2).1 = some v ∧
    (getCookie (setCookie (setCookie st sessionId n v (some d) t1).2 sessionId
        (d ++ ":" ++ n) w none t3).2 sessionId n (some d) t4).1 = some w := by
  have h1 := storeFind_after_setCookie n v (some d) t1 h
  have h2 := storeFind_after_setCookie (d ++ ":" ++ n) w none t3 h1
  refine ⟨rfl, ?_, ?_⟩
  · rw [getCookie_found (d ++ ":" ++ n) none t2 h1]
    simp [cookieKey, recordGet_recordSet]
  · rw [getCookie_found n (some d) t4 h2]
    simp [cookieKey, recordGet_recordSet]

/-- Witness for C10 at a concrete session. -/
theorem C10_witness :
    storeFind [exampleSession] "s1" = some exampleSession ∧
    (getCookie (setCookie [exampleSession] "s1" "sid" "abc123" (some "example.com") 1).2
        "s1" ("example.com" ++ ":" ++ "sid") none 2).1 = some "abc123" ∧
    (getCookie (setCookie (setCookie [exampleSession] "s1" "sid" "abc123"
          (some "example.com") 1).2
        "s1" ("example.com" ++ ":" ++ "sid") "zzz" none 3).2
        "s1" "sid" (some "example.com") 4).1 = some "zzz" :=
  ⟨by decide,
   (C10_cookie_key_aliasing [exampleSession] "s1" exampleSession
      "sid" "abc123" "example.com" "zzz" 1 2 3 4 (by decide)).2.1,
   (C10_cookie_key_aliasing [exampleSession] "s1" exampleSession
      "sid" "abc123" "example.com" "zzz" 1 2 3 4 (by decide)).2.2⟩

/-! ## C3 -/

/-- One `logAppend` step keeps "the last 1000 of everything appended so far"
invariant: appending to the trimmed history equals trimming the full sequence. -/
theorem logAppend_drop_step (l : List RequestLog) (e : RequestLog) :
    logAppend (l.drop (l.length - 1000)) e = (l ++ [e]).drop (l.length + 1 - 1000) := by
  by_cases hle : l.length + 1 ≤ 1000
  · have hd : l.length - 1000 = 0 := by omega
    have hd1 : l.length + 1 - 1000 = 0 := by omega
    unfold logAppend
    rw [hd, hd1, List.drop_zero, List.drop_zero, if_neg]
    simp only [List.length_append, List.length_singleton]
    omega
  · have hge : 1000 ≤ l.length := by omega
    have hlendrop : (l.drop (l.length - 1000)).length = 1000 := by
      rw [List.length_drop]
      omega
    have hlen : (l.drop (l.length - 1000) ++ [e]).length = 1001 := by
      rw [List.length_append, hlendrop]
      rfl
    unfold logAppend
    rw [if_pos (by rw [hlen]; omega), hlen]
    have h1 : 1001 - 1000 = 1 := rfl
    rw [h1, List.drop_append_of_le_length (by rw [hlendrop]; omega),
      List.drop_drop, List.drop_append_of_le_length (by omega)]
    have h2 : l.length - 1000 + 1 = l.length + 1 - 1000 := by omega
    rw [h2]

/-- Folding `logAppend` from the empty history over any arrival sequence keeps
exactly the final 1000 entries, in arrival order. -/
theorem foldl_logAppend_eq_drop (entries : List RequestLog) :
    entries.foldl logAppend [] = entries.drop (entries.length - 1000) := by
  induction entries using List.reverseRecOn with
  | nil => rfl
  | append_singleton l e ih =>
    rw [List.foldl_append, List.foldl_cons, List.foldl_nil, ih,
      logAppend_drop_step, List.length_append, List.length_singleton]

/-- C3: a session's `requestHistory` never exceeds 1000 entries, and after each
append the retained entries are exactly the most recent ones in arrival order
(oldest dropped first): the history reached from empty by any sequence of
appends is the final 1000 entries of the sequence; at the engine level,
`logRequest` on a present session performs exactly such an append and reports
success. -/
theorem C3_request_history_bounded_fifo (entries : List RequestLog) (st : Store)
    (sessionId method url : String) (statusCode duration now : Nat)
    (s : SessionData) (h : storeFind st sessionId = some s) :
    (entries.foldl logAppend []).length ≤ 1000 ∧
    entries.foldl logAppend [] = entries.drop (entries.length - 1000) ∧
    logRequest st sessionId method url statusCode duration now =
      (true,
       storeUpdate (storeUpdate st sessionId { s with lastAccessedAt := now })
         sessionId
         { s with lastAccessedAt := now,
                  requestHistory := logAppend s.requestHistory
                    { timestamp := now, method := method, url := url,
                      statusCode := statusCode, duration := duration } }) := by
  refine ⟨?_, foldl_logAppend_eq_drop entries, ?_⟩
  · rw [foldl_logAppend_eq_drop, List.length_drop]
    omega
  · unfold logRequest
    rw [getSession_found h]

/-- Witness for C3 at a concrete arrival sequence and a concrete store. -/
theorem C3_witness :
    storeFind [exampleSession] "s1" = some exampleSession ∧
    ([⟨1, "GET", "u1", 200, 5⟩, ⟨2, "POST", "u2", 201, 6⟩] :
        List RequestLog).foldl logAppend [] =
      [⟨1, "GET", "u1", 200, 5⟩, ⟨2, "POST", "u2", 201, 6⟩] ∧
    (logRequest [exampleSession] "s1" "GET" "u1" 200 5 9).1 = true := by
  have h : storeFind [exampleSession] "s1" = some exampleSession := by decide
  have happ := C3_request_history_bounded_fifo
    [⟨1, "GET", "u1", 200, 5⟩, ⟨2, "POST", "u2", 201, 6⟩]
    [exampleSession] "s1" "GET" "u1" 200 5 9 exampleSession h
  refine ⟨h, ?_, ?_⟩
  · rw [happ.2.1]; rfl
  · rw [happ.2.2]

/-! ## C4 -/

/-- C4 counterexample: the claim says every supplied override field appears
verbatim, including falsy values such as the empty string; in fact the source
merges with `||`, so a supplied empty `acceptLanguage` is discarded in favour
of the default `"ja-JP,ja;q=0.9"`. -/
theorem C4_counterexample :
    (generateBrowserFingerprint (some { acceptLanguage := some "" })
        { browserIdx := 0, timezoneIdx := 0, resolutionIdx := 0, depthIdx := 0,
          canvasPicks := [] }).acceptLanguage ≠ "" ∧
    (generateBrowserFingerprint (some { acceptLanguage := some "" })
        { browserIdx := 0, timezoneIdx := 0, resolutionIdx := 0, depthIdx := 0,
          canvasPicks := [] }).acceptLanguage = "ja-JP,ja;q=0.9" :=
  ⟨by decide, by decide⟩

/-- C4 (amended): a field supplied in the overrides appears verbatim in the
generated fingerprint whenever its value is truthy (a non-empty string, a
non-zero number); `webRTC` is merged with `??` instead of `||`, so a supplied
`webRTC` appears verbatim even when it is `false`. (Falsy supplied values of
the other fields fall back to the randomized defaults.) -/
theorem C4_truthy_overrides_verbatim (custom : Option FingerprintOverrides)
    (r : FingerprintRandom) :
    (∀ x, custom.bind (fun c => c.userAgent) = some x → x ≠ "" →
      (generateBrowserFingerprint custom r).userAgent = x) ∧
    (∀ x, custom.bind (fun c => c.acceptLanguage) = some x → x ≠ "" →
      (generateBrowserFingerprint custom r).acceptLanguage = x) ∧
    (∀ x, custom.bind (fun c => c.acceptEncoding) = some x → x ≠ "" →
      (generateBrowserFingerprint custom r).acceptEncoding = x) ∧
    (∀ x, custom.bind (fun c => c.timezone) = some x → x ≠ "" →
      (generateBrowserFingerprint custom r).timezone = x) ∧
    (∀ x, custom.bind (fun c => c.screenResolution) = some x → x ≠ "" →
      (generateBrowserFingerprint custom r).screenResolution = x) ∧
    (∀ x, custom.bind (fun c => c.colorDepth) = some x → x ≠ 0 →
      (generateBrowserFingerprint custom r).colorDepth = x) ∧
    (∀ x, custom.bind (fun c => c.platform) = some x → x ≠ "" →
      (generateBrowserFingerprint custom r).platform = x) ∧
    (∀ x, custom.bind (fun c => c.hardwareConcurrency) = some x → x ≠ 0 →
      (generateBrowserFingerprint custom r).hardwareConcurrency = x) ∧
    (∀ x, custom.bind (fun c => c.deviceMemory) = some x → x ≠ 0 →
      (generateBrowserFingerprint custom r).deviceMemory = x) ∧
    (∀ x, custom.bind (fun c => c.webGLVendor) = some x → x ≠ "" →
      (generateBrowserFingerprint custom r).webGLVendor = x) ∧
    (∀ x, custom.bind (fun c => c.webGLRenderer) = some x → x ≠ "" →
      (generateBrowserFingerprint custom r).webGLRenderer = x) ∧
    (∀ x, custom.bind (fun c => c.canvas) = some x → x ≠ "" →
      (generateBrowserFingerprint custom r).canvas = x) ∧
    (∀ b, custom.bind (fun c => c.webRTC) = some b →
      (generateBrowserFingerprint custom r).webRTC = b) := by
  refine ⟨?_, ?_, ?_, ?_, ?_, ?_, ?_, ?_, ?_, ?_, ?_, ?_, ?_⟩ <;>
    first
      | (intro x hx hne
         simp [generateBrowserFingerprint, hx, jsOrString, jsOrNat, hne])
      | (intro b hb
         simp [generateBrowserFingerprint, hb, jsNullish])

def exampleOverrides : FingerprintOverrides :=
  { userAgent := some "UA", acceptLanguage := some "AL", acceptEncoding := some "AE",
    timezone := some "TZ", screenResolution := some "SR", colorDepth := some 30,
    platform := some "PF", hardwareConcurrency := some 2, deviceMemory := some 4,
    webGLVendor := some "GV", webGLRenderer := some "GR", canvas := some "CV",
    webRTC := some false }

def exampleRandom : FingerprintRandom :=
  { browserIdx := 0, timezoneIdx := 0, resolutionIdx := 0, depthIdx := 0,
    canvasPicks := [] }

/-- Witness for C4's amended statement at a fully supplied truthy override set
(and a supplied `webRTC := false`, which `??` keeps verbatim). -/
theorem C4_witness :
    (generateBrowserFingerprint (some exampleOverrides) exampleRandom).userAgent = "UA" ∧
    (generateBrowserFingerprint (some exampleOverrides) exampleRandom).acceptLanguage = "AL" ∧
    (generateBrowserFingerprint (some exampleOverrides) exampleRandom).acceptEncoding = "AE" ∧
    (generateBrowserFingerprint (some exampleOverrides) exampleRandom).timezone = "TZ" ∧
    (generateBrowserFingerprint (some exampleOverrides) exampleRandom).screenResolution = "SR" ∧
    (generateBrowserFingerprint (some exampleOverrides) exampleRandom).colorDepth = 30 ∧
    (generateBrowserFingerprint (some exampleOverrides) exampleRandom).platform = "PF" ∧
    (generateBrowserFingerprint (some exampleOverrides) exampleRandom).hardwareConcurrency = 2 ∧
    (generateBrowserFingerprint (some exampleOverrides) exampleRandom).deviceMemory = 4 ∧
    (generateBrowserFingerprint (some exampleOverrides) exampleRandom).webGLVendor = "GV" ∧
    (generateBrowserFingerprint (some exampleOverrides) exampleRandom).webGLRenderer = "GR" ∧
    (generateBrowserFingerprint (some exampleOverrides) exampleRandom).canvas = "CV" ∧
    (generateBrowserFingerprint (some exampleOverrides) exampleRandom).webRTC = false :=
  have h := C4_truthy_overrides_verbatim (some exampleOverrides) exampleRandom
  ⟨h.1 "UA" rfl (by decide),
   h.2.1 "AL" rfl (by decide),
   h.2.2.1 "AE" rfl (by decide),
   h.2.2.2.1 "TZ" rfl (by decide),
   h.2.2.2.2.1 "SR" rfl (by decide),
   h.2.2.2.2.2.1 30 rfl (by decide),
   h.2.2.2.2.2.2.1 "PF" rfl (by decide),
   h.2.2.2.2.2.2.2.1 2 rfl (by decide),
   h.2.2.2.2.2.2.2.2.1 4 rfl (by decide),
   h.2.2.2.2.2.2.2.2.2.1 "GV" rfl (by decide),
   h.2.2.2.2.2.2.2.2.2.2.1 "GR" rfl (by decide),
   h.2.2.2.2.2.2.2.2.2.2.2.1 "CV" rfl (by decide),
   h.2.2.2.2.2.2.2.2.2.2.2.2 false rfl⟩

/-! ## C1 -/

/-- The fold of `olderOf` lands on its seed or on a list element. -/
theorem foldl_olderOf_mem (rest : List SessionData) (s : SessionData) :
    rest.foldl olderOf s = s ∨ rest.foldl olderOf s ∈ rest := by
  induction rest generalizing s with
  | nil => exact Or.inl rfl
  | cons c t ih =>
    rw [List.foldl_cons]
    rcases ih (olderOf s c) with h | h
    · rw [h]
      unfold olderOf
      split
      · exact Or.inl rfl
      · exact Or.inr (List.mem_cons_self c t)
    · exact Or.inr (List.mem_cons_of_mem c h)

/-- The fold of `olderOf` is no later than its seed and than every element. -/
theorem foldl_olderOf_le (rest : List SessionData) (s : SessionData) :
    (rest.foldl olderOf s).lastAccessedAt ≤ s.lastAccessedAt ∧
    ∀ x ∈ rest, (rest.foldl olderOf s).lastAccessedAt ≤ x.lastAccessedAt := by
  induction rest generalizing s with
  | nil => exact ⟨Nat.le_refl _, fun x hx => absurd hx (List.not_mem_nil x)⟩
  | cons c t ih =>
    rw [List.foldl_cons]
    have hseed : (olderOf s c).lastAccessedAt ≤ s.lastAccessedAt ∧
        (olderOf s c).lastAccessedAt ≤ c.lastAccessedAt := by
      unfold olderOf
      split
      · exact ⟨Nat.le_refl _, Nat.le_of_lt (by assumption)⟩
      · exact ⟨Nat.le_of_not_lt (by assumption), Nat.le_refl _⟩
    obtain ⟨h1, h2⟩ := ih (olderOf s c)
    refine ⟨Nat.le_trans h1 hseed.1, ?_⟩
    intro x hx
    rcases List.mem_cons.mp hx with rfl | hx
    · exact Nat.le_trans h1 hseed.2
    · exact h2 x hx

/-- A non-empty store has an oldest session: a member whose `lastAccessedAt`
is least. -/
theorem oldestSession_spec (st : Store) (h : st ≠ []) :
    ∃ o, oldestSession st = some o ∧ o ∈ st ∧
      ∀ x ∈ st, o.lastAccessedAt ≤ x.lastAccessedAt := by
  match st with
  | [] => exact absurd rfl h
  | s :: rest =>
    refine ⟨rest.foldl olderOf s, rfl, ?_, ?_⟩
    · rcases foldl_olderOf_mem rest s with h | h
      · rw [h]; exact List.mem_cons_self s rest
      · exact List.mem_cons_of_mem s h
    · intro x hx
      obtain ⟨h1, h2⟩ := foldl_olderOf_le rest s
      rcases List.mem_cons.mp hx with rfl | hx
      · exact h1
      · exact h2 x hx

/-- Inserting into the store grows it by at most one entry. -/
theorem storeSize_storeSet_le (st : Store) (s : SessionData) :
    storeSize (storeSet st s) ≤ storeSize st + 1 := by
  unfold storeSet storeSize storeUpdate
  split
  · rw [List.length_map]
    exact Nat.le_succ _
  · rw [List.length_append]
    exact Nat.le_refl _

/-- Deleting a member of the store shrinks it by exactly one entry. -/
theorem storeSize_storeDelete_of_mem (st : Store) (o : SessionData) (ho : o ∈ st) :
    storeSize (storeDelete st o.id) = storeSize st - 1 := by
  unfold storeDelete storeSize
  rw [List.length_eraseP, if_pos]
  exact List.any_eq_true.mpr ⟨o, ho, by simp⟩

/-- One `createSession` call never pushes a within-capacity store over
`MAX_SESSIONS`. -/
theorem createSession_size_le (st : Store) (a : CreateArgs)
    (h : storeSize st ≤ MAX_SESSIONS) :
    storeSize (createSession st a).2 ≤ MAX_SESSIONS := by
  unfold createSession
  by_cases hcap : MAX_SESSIONS ≤ storeSize st
  · have hne : st ≠ [] := by
      intro heq
      rw [heq] at hcap
      simp [storeSize, MAX_SESSIONS] at hcap
    obtain ⟨o, ho, hmem, _⟩ := oldestSession_spec st hne
    rw [if_pos hcap, ho]
    calc storeSize (storeSet (storeDelete st o.id) (newSessionData a))
        ≤ storeSize (storeDelete st o.id) + 1 := storeSize_storeSet_le _ _
      _ = storeSize st - 1 + 1 := by rw [storeSize_storeDelete_of_mem st o hmem]
      _ ≤ MAX_SESSIONS := by
          have hm : MAX_SESSIONS = 100 := rfl
          omega
  · rw [if_neg hcap]
    calc storeSize (storeSet st (newSessionData a))
        ≤ storeSize st + 1 := storeSize_storeSet_le _ _
      _ ≤ MAX_SESSIONS := by omega

/-- Any run of `createSession` calls from a within-capacity store stays within
capacity. -/
theorem foldl_createSession_size_le (ops : List CreateArgs) (st : Store)
    (h : storeSize st ≤ MAX_SESSIONS) :
    storeSize (ops.foldl (fun st a => (createSession st a).2) st) ≤ MAX_SESSIONS := by
  induction ops generalizing st with
  | nil => exact h
  | cons a t ih =>
    rw [List.foldl_cons]
    exact ih _ (createSession_size_le st a h)

/-- C1: for every sequence of `createSession` calls the live-session count
never exceeds `MAX_SESSIONS`, and whenever a call finds the count at or above
`MAX_SESSIONS` it deletes a session whose `lastAccessedAt` is least (the
least-recently-accessed one) before inserting the new session. -/
theorem C1_capacity_and_lru_eviction :
    (∀ ops : List CreateArgs,
      storeSize (ops.foldl (fun st a => (createSession st a).2) []) ≤ MAX_SESSIONS) ∧
    (∀ (st : Store) (a : CreateArgs), MAX_SESSIONS ≤ storeSize st →
      ∃ o, oldestSession st = some o ∧ o ∈ st ∧
        (∀ x ∈ st, o.lastAccessedAt ≤ x.lastAccessedAt) ∧
        createSession st a =
          (newSessionData a, storeSet (storeDelete st o.id) (newSessionData a))) := by
  constructor
  · intro ops
    exact foldl_createSession_size_le ops [] (by simp [storeSize, MAX_SESSIONS])
  · intro st a hcap
    have hne : st ≠ [] := by
      intro heq
      rw [heq] at hcap
      simp [storeSize, MAX_SESSIONS] at hcap
    obtain ⟨o, ho, hmem, hmin⟩ := oldestSession_spec st hne
    refine ⟨o, ho, hmem, hmin, ?_⟩
    unfold createSession
    rw [if_pos hcap, ho]

/-- Witness for C1's eviction clause at a concrete store holding exactly
`MAX_SESSIONS` sessions. -/
theorem C1_witness :
    MAX_SESSIONS ≤ storeSize (List.replicate 100 exampleSession) ∧
    ∃ o, oldestSession (List.replicate 100 exampleSession) = some o ∧
      o ∈ List.replicate 100 exampleSession ∧
      (∀ x ∈ List.replicate 100 exampleSession,
        o.lastAccessedAt ≤ x.lastAccessedAt) ∧
      createSession (List.replicate 100 exampleSession)
          { sessionId := "fresh", custom := none, rand := exampleRandom, now := 9 } =
        (newSessionData
          { sessionId := "fresh", custom := none, rand := exampleRandom, now := 9 },
         storeSet
           (storeDelete (List.replicate 100 exampleSession) o.id)
           (newSessionData
             { sessionId := "fresh", custom := none, rand := exampleRandom, now := 9 })) :=
  have hcap : MAX_SESSIONS ≤ storeSize (List.replicate 100 exampleSession) := by
    simp [storeSize, MAX_SESSIONS]
  ⟨hcap,
   C1_capacity_and_lru_eviction.2 (List.replicate 100 exampleSession)
     { sessionId := "fresh", custom := none, rand := exampleRandom, now := 9 } hcap⟩

end Rammerhead
